import Mathlib

/-!
Shallow embedding of the ESP-SPI-Flasher firmware command processor
(src/SPI-Flasher/src/main.cpp) together with theorems settling the
specification's testable properties.

The firmware's global mutable variables are gathered into a `Session`
record; each C function becomes a pure function from a `Session` (plus
the inputs the original read from collaborators: serial bytes, the flash
device's error status, the digest primitive) to a new `Session` and the
list of response lines printed.  The flash driver, the MD5 primitive and
the serial transport are external collaborators and are represented by
explicit parameters; the base64 codec (`base64.hpp`, a vendored library
whose source is not part of the core file) is modelled from the spec's
contract as a standard base64 decoder.

Machine integers: `uint32_t` values are embedded as `Nat` with an
explicit `% 2 ^ 32` where the C code can overflow.
-/

namespace SPIFlasher

/-- `DATA_CHUNK_SIZE` (main.cpp:6). -/
def DATA_CHUNK_SIZE : Nat := 2048

/-- `MESSAGE_MAX_SIZE = (int)(DATA_CHUNK_SIZE / .75) + 5` (main.cpp:7):
`2048 / 0.75 = 2730.66…`, truncated to `2730`, plus `5`. -/
def MESSAGE_MAX_SIZE : Nat := 2735

/-- `INITIAL_SERIAL_BAUD_RATE` (main.cpp:8). -/
def INITIAL_SERIAL_BAUD_RATE : Nat := 9600

/-- The `states` enum (main.cpp:13). -/
inductive states
  | NONE
  | SET_BAUD
  | SET_ERASE
  | SET_WRITE
  | SET_FILE_SIZE
  | RECV_FLASH_DATA
  | DO_ERASE
  | DO_FLASH
  | RESET_STATE
  | SEND_FLASH_INFO
deriving DecidableEq

/-- The firmware's global mutable variables (main.cpp:14, 42-57), plus the
current transport rate (the baud the serial port is open at).  The byte
arrays `receivedMessage[MESSAGE_MAX_SIZE]` and `dataBuffer[DATA_CHUNK_SIZE]`
are modelled as lists whose initial length is the declared array size; a
write past the end of a list makes it longer, so an out-of-bounds store in
the C program is visible as a length increase in the model. -/
structure Session where
  state : states
  baud : Nat
  flashSize : Nat
  currentFlashOffset : Nat
  shouldDoErase : Bool
  shouldDoWrite : Bool
  fileSize : Nat
  receivedMessage : List Nat
  messageLength : Nat
  currRecvDataPos : Nat
  dataNeedsHandling : Bool
  dataBuffer : List Nat
  dataLength : Nat
deriving DecidableEq

/-- The power-on state built by the C runtime's zero-initialisation of the
globals plus `setup()` (main.cpp:60-67): both arrays zeroed, all counters
zero, serial opened at the initial baud, capacity read from the device. -/
def initialSession (cap : Nat) : Session :=
  { state := states.NONE
    baud := INITIAL_SERIAL_BAUD_RATE
    flashSize := cap
    currentFlashOffset := 0
    shouldDoErase := false
    shouldDoWrite := false
    fileSize := 0
    receivedMessage := List.replicate MESSAGE_MAX_SIZE 0
    messageLength := 0
    currRecvDataPos := 0
    dataNeedsHandling := false
    dataBuffer := List.replicate DATA_CHUNK_SIZE 0
    dataLength := 0 }

/-- `resetState()` (main.cpp:80-92).  Exactly the assignments the C function
performs: reopen the transport at the initial baud, clear the command
state, both flags, the file size and the framing counters.  Note that the
C function does not assign `currentFlashOffset`, `dataLength`,
`receivedMessage` or `dataBuffer`; the model leaves them untouched too. -/
def resetState (s : Session) : Session :=
  { s with
    baud := INITIAL_SERIAL_BAUD_RATE
    state := states.NONE
    shouldDoErase := false
    shouldDoWrite := false
    fileSize := 0
    currRecvDataPos := 0
    messageLength := 0
    dataNeedsHandling := false }

/-- Store `v` at index `i` of a byte array modelled as a list: inside the
list this is `List.set`; past the end it extends the list (the model's
image of an out-of-bounds array store, padding with zeros if the index
skips cells). -/
def listSet (l : List Nat) (i v : Nat) : List Nat :=
  if i < l.length then l.set i v
  else l ++ List.replicate (i - l.length) 0 ++ [v]

/-- `decode_base64` writing its output over the front of a byte array:
the decoded bytes replace the array's leading cells; if there are more
decoded bytes than cells the list grows (an out-of-bounds store). -/
def writeBytes (buf bytes : List Nat) : List Nat :=
  bytes ++ buf.drop bytes.length

/-- The payload handed to the handlers: the first `messageLength` bytes of
`receivedMessage`, exactly the `(receivedMessage, messageLength)` pair the
C handlers pass to the decoder. -/
def payloadOf (s : Session) : List Nat :=
  s.receivedMessage.take s.messageLength

/-- The overflow diagnostic of main.cpp:126. -/
def overflowErrorLine : String :=
  "!ERROR: Message overflowed buffer; did you mean to send \x27&\x27 (DO_FLASH)?"

/-- One iteration of the `while (Serial.available())` loop of
`handleSerialMessage()` (main.cpp:95-131) on the byte `b` read from the
transport (`-1` meaning no data).  The C default branch stores the byte at
`currRecvDataPos`, increments the cursor, and only then checks
`currRecvDataPos > MESSAGE_MAX_SIZE`; the two ifs below are that store
plus post-increment check, written let-free. -/
def handleSerialByte (s : Session) (b : Int) : Session × List String :=
  if b = -1 then (s, [])
  else if b = 33 then ({ s with state := states.SET_BAUD }, [])
  else if b = 64 then ({ s with state := states.SET_ERASE }, [])
  else if b = 35 then ({ s with state := states.SET_WRITE }, [])
  else if b = 36 then ({ s with state := states.SET_FILE_SIZE }, [])
  else if b = 37 then ({ s with state := states.RECV_FLASH_DATA }, [])
  else if b = 94 then ({ s with state := states.DO_ERASE }, [])
  else if b = 38 then ({ s with state := states.DO_FLASH }, [])
  else if b = 42 then ({ s with state := states.RESET_STATE }, [])
  else if b = 40 then ({ s with state := states.SEND_FLASH_INFO }, [])
  else if b = 10 then
    ({ s with messageLength := s.currRecvDataPos, currRecvDataPos := 0,
              dataNeedsHandling := true }, [])
  else if s.currRecvDataPos + 1 > MESSAGE_MAX_SIZE then
    (resetState { s with
        receivedMessage := listSet s.receivedMessage s.currRecvDataPos (b.toNat % 256)
        currRecvDataPos := s.currRecvDataPos + 1 }, [overflowErrorLine])
  else
    ({ s with
        receivedMessage := listSet s.receivedMessage s.currRecvDataPos (b.toNat % 256)
        currRecvDataPos := s.currRecvDataPos + 1 }, [])

/-- `handleSerialMessage()`s loop over all bytes available on the
transport, in order, accumulating the response lines printed. -/
def handleSerialMessage (s : Session) : List Int → Session × List String
  | [] => (s, [])
  | b :: rest =>
    let r := handleSerialByte s b
    let r2 := handleSerialMessage r.1 rest
    (r2.1, r.2 ++ r2.2)

/-- Modelled from the spec: the base64 codec (`base64.hpp`) is an external
collaborator whose source is not under src/; §1 gives its contract
("decodes an ASCII payload into raw bytes") and §6 fixes the encoding as
standard base64 ASCII text.  Value of one base64 alphabet character
(`A`-`Z`, `a`-`z`, `0`-`9`, `+`, `/`), `none` for any other byte
(including the `=` pad and the terminator), matching a decoder that stops
at the first non-alphabet character. -/
def b64CharVal (c : Nat) : Option Nat :=
  if 65 ≤ c ∧ c ≤ 90 then some (c - 65)
  else if 97 ≤ c ∧ c ≤ 122 then some (c - 97 + 26)
  else if 48 ≤ c ∧ c ≤ 57 then some (c - 48 + 52)
  else if c = 43 then some 62
  else if c = 47 then some 63
  else none

/-- Modelled from the spec: the run of leading base64-alphabet characters
of the input, as 6-bit values. -/
def b64Vals : List Nat → List Nat
  | [] => []
  | c :: rest =>
    match b64CharVal c with
    | some v => v :: b64Vals rest
    | none => []

/-- Modelled from the spec: decode one final group of at most four 6-bit
values into bytes (4 values give 3 bytes, 3 give 2, 2 give 1, a single
leftover value yields nothing). -/
def b64Group : List Nat → List Nat
  | [a, b, c, d] => [a * 4 + b / 16, (b % 16) * 16 + c / 4, (c % 4) * 64 + d]
  | [a, b, c] => [a * 4 + b / 16, (b % 16) * 16 + c / 4]
  | [a, b] => [a * 4 + b / 16]
  | _ => []

/-- Modelled from the spec: standard base64 decoding of a list of 6-bit
values, four at a time. -/
def b64Decode : List Nat → List Nat
  | a :: b :: c :: d :: rest => b64Group [a, b, c, d] ++ b64Decode rest
  | rest => b64Group rest

/-- `b64ToBytes` (main.cpp:305-307), a direct call into the codec
collaborator; the result is the list of decoded raw bytes. -/
def b64ToBytes (toDecode : List Nat) : List Nat :=
  b64Decode (b64Vals toDecode)

/-- The loop of `byteArrayToInt` (main.cpp:282-291):
`out += byteArray[i] << (i * 8)` with `out : uint32_t`, so every addition
is taken mod `2 ^ 32`.  (For `i ≥ 4` the C shift of a promoted 32-bit int
by ≥ 32 bits is undefined; the embedding takes the mathematical value
`b * 2 ^ (8 * i)`, whose contribution mod `2 ^ 32` is zero, which is the
claim's little-endian reading.) -/
def byteArrayToIntAux : List Nat → Nat → Nat → Nat
  | [], _, out => out
  | b :: rest, i, out => byteArrayToIntAux rest (i + 1) ((out + b * 2 ^ (8 * i)) % 2 ^ 32)

/-- `byteArrayToInt` (main.cpp:282-291); the `length == 0` early return
coincides with the empty fold. -/
def byteArrayToInt (byteArray : List Nat) : Nat :=
  byteArrayToIntAux byteArray 0 0

/-- `b64ToInt` (main.cpp:310-313): decode base64, then rebuild the
little-endian integer. -/
def b64ToInt (toDecode : List Nat) : Nat :=
  byteArrayToInt (b64ToBytes toDecode)

/-- One uppercase hexadecimal digit, as `Serial.print(v, HEX)` renders. -/
def hexDigit (n : Nat) : String :=
  String.singleton (Char.ofNat (if n < 10 then 48 + n else 55 + n))

/-- Hex digits of `n`, most significant first, empty for zero; the first
argument is fuel bounding the recursion depth. -/
def natToHexAux : Nat → Nat → String
  | 0, _ => ""
  | fuel + 1, n => if n = 0 then "" else natToHexAux fuel (n / 16) ++ hexDigit (n % 16)

/-- `Serial.print(n, HEX)`: uppercase hexadecimal rendering of `n`. -/
def natToHex (n : Nat) : String :=
  if n = 0 then "0" else natToHexAux n n

/-- `handleSetBaud()` (main.cpp:181-195).  `b64ToInt` decodes the payload
into `dataBuffer` as a side effect before the integer is rebuilt; rates
above 921600 are rejected with one error line (the rate printed in hex)
and a full reset, otherwise the transport is closed and reopened at the
new rate with no response line. -/
def handleSetBaud (s : Session) : Session × List String :=
  let decoded := b64ToBytes (payloadOf s)
  let s1 := { s with dataBuffer := writeBytes s.dataBuffer decoded }
  let baudRate := byteArrayToInt decoded
  if baudRate > 921600 then
    (resetState s1, ["!ERROR: Invalid baudrate \x27" ++ natToHex baudRate ++ "\x27"])
  else
    ({ s1 with baud := baudRate }, [])

/-- `handleSetErase()` (main.cpp:197): the decoded integer's truthiness. -/
def handleSetErase (s : Session) : Session × List String :=
  let decoded := b64ToBytes (payloadOf s)
  let s1 := { s with dataBuffer := writeBytes s.dataBuffer decoded }
  ({ s1 with shouldDoErase := decide (byteArrayToInt decoded ≠ 0) }, [])

/-- `handleSetWrite()` (main.cpp:198): the decoded integer's truthiness. -/
def handleSetWrite (s : Session) : Session × List String :=
  let decoded := b64ToBytes (payloadOf s)
  let s1 := { s with dataBuffer := writeBytes s.dataBuffer decoded }
  ({ s1 with shouldDoWrite := decide (byteArrayToInt decoded ≠ 0) }, [])

/-- `handleSetFileSize()` (main.cpp:200-210): values above the device
capacity are rejected with one error line and a full reset; any other
value is stored as `fileSize` with no response line. -/
def handleSetFileSize (s : Session) : Session × List String :=
  let decoded := b64ToBytes (payloadOf s)
  let s1 := { s with dataBuffer := writeBytes s.dataBuffer decoded }
  let readValue := byteArrayToInt decoded
  if readValue > s.flashSize then
    (resetState s1, ["!ERROR: File size exceeds flash size"])
  else
    ({ s1 with fileSize := readValue }, [])

/-- The `RECV_FLASH_DATA` branch of `handleData()` (main.cpp:141-151 plus
the trailing cleanup at 162-163).  `digest` is the MD5 collaborator
(main.cpp:268-279), out of scope per spec §1, applied to the first
`dataLength` cells of `dataBuffer` exactly as `md5(dataBuffer, dataLength)`
is.  A zero decoded length produces one error line and a full reset;
otherwise one checksum line tagged `@` is emitted and the decoded bytes
stay in `dataBuffer`/`dataLength` for the next do-flash. -/
def handleRecvFlashData (digest : List Nat → String) (s : Session) : Session × List String :=
  let decoded := b64ToBytes (payloadOf s)
  let s1 := { s with dataBuffer := writeBytes s.dataBuffer decoded,
                     dataLength := decoded.length }
  if s1.dataLength = 0 then
    (resetState s1, ["!ERROR: Data length was 0 after conversion from base64"])
  else
    ({ s1 with messageLength := 0, dataNeedsHandling := false },
     ["@" ++ digest (List.take s1.dataLength s1.dataBuffer)])

/-- `writeData()` (main.cpp:245-265).  The flash driver is an external
collaborator; `flashErrNo` is the status `flash.error()` reports after
`flash.writeByteArray(currentFlashOffset, data, dataLength)`.  A nonzero
status produces one error line naming the offset and code and a full
reset; a zero status produces the `#W_OK` line and advances the cursor by
the written length (`uint32_t` addition). -/
def writeData (s : Session) (data : List Nat) (dataLength : Nat) (flashErrNo : Int) :
    Session × List String :=
  if flashErrNo ≠ 0 then
    (resetState s,
     ["!ERROR: Flash error during write in page at " ++ toString s.currentFlashOffset ++
      " : Err " ++ toString flashErrNo])
  else
    ({ s with currentFlashOffset := (s.currentFlashOffset + dataLength) % 2 ^ 32 },
     ["#W_OK"])

/-- `handleDoFlash()` (main.cpp:212-215): write the decoded chunk, then
clear `dataLength` regardless of outcome. -/
def handleDoFlash (s : Session) (flashErrNo : Int) : Session × List String :=
  let r := writeData s s.dataBuffer s.dataLength flashErrNo
  ({ r.1 with dataLength := 0 }, r.2)

/-- The erase loop of `eraseChip()` (main.cpp:223-239): `i` is the block
index, the second argument the number of iterations left; `errAt i` is
the status `flash.error()` reports after `flash.eraseBlock32K(32768 * i)`.
The first nonzero status yields one error line naming that block's offset
and code, a full reset and no further blocks; if every block succeeds the
completion line is emitted. -/
def eraseLoop (errAt : Nat → Int) (s : Session) : Nat → Nat → Session × List String
  | _, 0 => (s, ["#Chip erased"])
  | i, k + 1 =>
    if errAt i ≠ 0 then
      (resetState s,
       ["!ERROR: Flash error during erase in block at " ++ toString (32768 * i) ++
        " | Err " ++ toString (errAt i)])
    else
      eraseLoop errAt s (i + 1) k

/-- `eraseChip()` (main.cpp:218-242).  The C loop bound is
`ceil(flashSize / 32768)`, but `flashSize / 32768` is integer division,
so `ceil` receives an already-floored value and the bound is
`flashSize / 32768` rounded down. -/
def eraseChip (s : Session) (errAt : Nat → Int) : Session × List String :=
  let r := eraseLoop errAt s 0 (s.flashSize / 32768)
  (r.1, "#Erasing chip..." :: r.2)

/-- A transport byte that is plain payload data: not the no-data sentinel
`-1`, none of the nine command-selector bytes `! @ # $ % ^ & * (`
(main.cpp:105-113), and not the `\n` end marker. -/
def IsDataByte (b : Int) : Prop :=
  b ≠ -1 ∧ b ≠ 33 ∧ b ≠ 64 ∧ b ≠ 35 ∧ b ≠ 36 ∧ b ≠ 37 ∧
  b ≠ 94 ∧ b ≠ 38 ∧ b ≠ 42 ∧ b ≠ 40 ∧ b ≠ 10

instance (b : Int) : Decidable (IsDataByte b) := by
  unfold IsDataByte; infer_instance

/-- The nine reserved command-selector bytes, in the order of the C switch. -/
def selectorBytes : List Int := [33, 64, 35, 36, 37, 94, 38, 42, 40]

/-- The command each selector byte switches `state` to (main.cpp:105-113). -/
def selectorCommand : Int → states
  | 33 => states.SET_BAUD
  | 64 => states.SET_ERASE
  | 35 => states.SET_WRITE
  | 36 => states.SET_FILE_SIZE
  | 37 => states.RECV_FLASH_DATA
  | 94 => states.DO_ERASE
  | 38 => states.DO_FLASH
  | 42 => states.RESET_STATE
  | 40 => states.SEND_FLASH_INFO
  | _ => states.NONE

/-- A session mid-conversation: pending receive-flash-chunk command, the
erase flag set and a stored target file size, so that a later reset is
observable on those fields. -/
def c2Session : Session :=
  { initialSession 4194304 with
    state := states.RECV_FLASH_DATA, shouldDoErase := true, fileSize := 7 }

/-- A session whose write cursor, flags, size and framing fields are all
away from their initial values. -/
def c1Session : Session :=
  { initialSession 4194304 with
    state := states.DO_FLASH, currentFlashOffset := 4, shouldDoErase := true,
    shouldDoWrite := true, fileSize := 99, messageLength := 7,
    currRecvDataPos := 12, dataNeedsHandling := true }

/-- A session holding a framed set-file-size payload: `"AAQ="`, the base64
encoding of the little-endian bytes `[0x00, 0x04]`, i.e. the value 1024,
against a device whose capacity is exactly 1024 (the boundary case). -/
def c5Session : Session :=
  { initialSession 1024 with
    receivedMessage := [65, 65, 81, 61] ++ List.replicate 2731 0
    messageLength := 4 }

/-- A session holding a framed set-baud payload: `"gIQe"`, the base64
encoding of the little-endian bytes `[0x80, 0x84, 0x1E]`, i.e. the rate
2000000, above the 921600 ceiling. -/
def c6Session : Session :=
  { initialSession 4194304 with
    receivedMessage := [103, 73, 81, 101] ++ List.replicate 2731 0
    messageLength := 4 }

/-- A session holding a framed receive-flash-chunk payload of 2732 base64
characters (2732 times `A`), a length the framer accepts
(2732 ≤ MESSAGE_MAX_SIZE = 2735). -/
def c10Session : Session :=
  { initialSession 4194304 with
    receivedMessage := List.replicate 2732 65 ++ List.replicate 3 0
    messageLength := 2732 }

/-- A mock device error profile: block 0 erases cleanly, every later block
would report error code 5.  Against this device a successful erase run
proves no block past block 0 was ever attempted. -/
def c4ErrAt : Nat → Int := fun i => if i = 0 then 0 else 5

/-! ### Helper lemmas -/

theorem listSet_length (l : List Nat) (i v : Nat) :
    (listSet l i v).length = max l.length (i + 1) := by
  unfold listSet
  split
  · simp only [List.length_set]
    omega
  · simp only [List.length_append, List.length_replicate, List.length_cons,
      List.length_nil]
    omega

theorem writeBytes_length (buf bytes : List Nat) :
    (writeBytes buf bytes).length = max buf.length bytes.length := by
  simp only [writeBytes, List.length_append, List.length_drop]
  omega

theorem take_writeBytes (buf bytes : List Nat) :
    List.take bytes.length (writeBytes buf bytes) = bytes := by
  simp [writeBytes]

/-- A data byte received while the cursor is still inside the buffer is
stored at the cursor and the cursor advances, with no response line. -/
theorem handleSerialByte_data (s : Session) (b : Int) (hb : IsDataByte b)
    (hlt : s.currRecvDataPos < MESSAGE_MAX_SIZE) :
    handleSerialByte s b =
      ({ s with
          receivedMessage := listSet s.receivedMessage s.currRecvDataPos (b.toNat % 256)
          currRecvDataPos := s.currRecvDataPos + 1 }, []) := by
  obtain ⟨h1, h2, h3, h4, h5, h6, h7, h8, h9, h10, h11⟩ := hb
  unfold handleSerialByte
  rw [if_neg h1, if_neg h2, if_neg h3, if_neg h4, if_neg h5, if_neg h6,
    if_neg h7, if_neg h8, if_neg h9, if_neg h10, if_neg h11, if_neg (by omega)]

/-- A data byte received when the cursor has already reached the buffer
capacity is still stored (one cell past the bound), after which the
overflow diagnostic is emitted and the session fully reset. -/
theorem handleSerialByte_overflow (s : Session) (b : Int) (hb : IsDataByte b)
    (hge : MESSAGE_MAX_SIZE ≤ s.currRecvDataPos) :
    handleSerialByte s b =
      (resetState { s with
          receivedMessage := listSet s.receivedMessage s.currRecvDataPos (b.toNat % 256)
          currRecvDataPos := s.currRecvDataPos + 1 }, [overflowErrorLine]) := by
  obtain ⟨h1, h2, h3, h4, h5, h6, h7, h8, h9, h10, h11⟩ := hb
  unfold handleSerialByte
  rw [if_neg h1, if_neg h2, if_neg h3, if_neg h4, if_neg h5, if_neg h6,
    if_neg h7, if_neg h8, if_neg h9, if_neg h10, if_neg h11, if_pos (by omega)]

theorem handleSerialMessage_append (s : Session) (xs ys : List Int) :
    handleSerialMessage s (xs ++ ys) =
      ((handleSerialMessage (handleSerialMessage s xs).1 ys).1,
       (handleSerialMessage s xs).2 ++
         (handleSerialMessage (handleSerialMessage s xs).1 ys).2) := by
  induction xs generalizing s with
  | nil => simp [handleSerialMessage]
  | cons b rest ih =>
    simp only [List.cons_append, handleSerialMessage, List.append_eq]
    rw [ih]
    simp [List.append_assoc]

/-- Feeding a run of data bytes that fits in the remaining buffer space
produces no response line, advances the cursor by the run's length, keeps
the buffer at its declared size (no out-of-bounds store) and leaves every
other Session field untouched. -/
theorem feed_data_ok (bs : List Int) :
    ∀ s : Session, (∀ b ∈ bs, IsDataByte b) →
    s.currRecvDataPos + bs.length ≤ MESSAGE_MAX_SIZE →
    s.receivedMessage.length = MESSAGE_MAX_SIZE →
    (handleSerialMessage s bs).2 = [] ∧
    (handleSerialMessage s bs).1.currRecvDataPos = s.currRecvDataPos + bs.length ∧
    (handleSerialMessage s bs).1.receivedMessage.length = MESSAGE_MAX_SIZE ∧
    (handleSerialMessage s bs).1.state = s.state ∧
    (handleSerialMessage s bs).1.shouldDoErase = s.shouldDoErase ∧
    (handleSerialMessage s bs).1.shouldDoWrite = s.shouldDoWrite ∧
    (handleSerialMessage s bs).1.fileSize = s.fileSize ∧
    (handleSerialMessage s bs).1.messageLength = s.messageLength ∧
    (handleSerialMessage s bs).1.dataNeedsHandling = s.dataNeedsHandling ∧
    (handleSerialMessage s bs).1.baud = s.baud ∧
    (handleSerialMessage s bs).1.flashSize = s.flashSize ∧
    (handleSerialMessage s bs).1.currentFlashOffset = s.currentFlashOffset ∧
    (handleSerialMessage s bs).1.dataBuffer = s.dataBuffer ∧
    (handleSerialMessage s bs).1.dataLength = s.dataLength := by
  induction bs with
  | nil =>
    intro s _ _ hbuf
    simp [handleSerialMessage, hbuf]
  | cons b rest ih =>
    intro s hdata hlen hbuf
    have hb : IsDataByte b := hdata b (by simp)
    have hlt : s.currRecvDataPos < MESSAGE_MAX_SIZE := by
      simp only [List.length_cons] at hlen
      omega
    simp only [handleSerialMessage, handleSerialByte_data s b hb hlt]
    have hbuf1 :
        (listSet s.receivedMessage s.currRecvDataPos (b.toNat % 256)).length =
          MESSAGE_MAX_SIZE := by
      rw [listSet_length, hbuf]
      omega
    have hrest := ih
      { s with
        receivedMessage := listSet s.receivedMessage s.currRecvDataPos (b.toNat % 256)
        currRecvDataPos := s.currRecvDataPos + 1 }
      (fun x hx => hdata x (by simp [hx]))
      (by simp only [List.length_cons] at hlen; simpa using by omega)
      (by simpa using hbuf1)
    simp only [List.length_cons]
    refine ⟨by simpa using hrest.1, ?_⟩
    have h2 := hrest.2
    simp only at h2
    constructor
    · rw [h2.1]; omega
    · exact h2.2

/-- The accumulator form of the little-endian fold equals a closed sum:
each byte contributes `byte * 2 ^ (8 * index)`, the whole taken mod
`2 ^ 32`. -/
theorem byteArrayToIntAux_eq (l : List Nat) :
    ∀ i acc, acc < 2 ^ 32 →
    byteArrayToIntAux l i acc =
      (acc + ∑ j ∈ Finset.range l.length, l.getD j 0 * 2 ^ (8 * (i + j))) % 2 ^ 32 := by
  induction l with
  | nil =>
    intro i acc h
    simp only [byteArrayToIntAux, List.length_nil, Finset.range_zero,
      Finset.sum_empty, Nat.add_zero]
    omega
  | cons b t ih =>
    intro i acc h
    simp only [byteArrayToIntAux]
    rw [ih (i + 1) _ (Nat.mod_lt _ (by norm_num)), Nat.mod_add_mod,
      List.length_cons, Finset.sum_range_succ']
    have hidx : ∀ j : Nat, i + 1 + j = i + (j + 1) := by omega
    simp only [List.getD_cons_succ, List.getD_cons_zero, hidx, Nat.add_zero]
    congr 1
    ring

theorem b64Vals_replicate_A (n : Nat) :
    b64Vals (List.replicate n 65) = List.replicate n 0 := by
  induction n with
  | zero => simp [b64Vals]
  | succ k ih => simp [List.replicate_succ, b64Vals, b64CharVal, ih]

theorem b64Decode_replicate_zero (k : Nat) :
    b64Decode (List.replicate (4 * k) 0) = List.replicate (3 * k) 0 := by
  induction k with
  | zero => simp [b64Decode, b64Group]
  | succ m ih =>
    rw [show 4 * (m + 1) = 4 + 4 * m by ring, show 3 * (m + 1) = 3 + 3 * m by ring,
      List.replicate_add, List.replicate_add]
    have h4 : List.replicate 4 (0 : Nat) ++ List.replicate (4 * m) 0 =
        0 :: 0 :: 0 :: 0 :: List.replicate (4 * m) 0 := rfl
    have h3 : List.replicate 3 (0 : Nat) ++ List.replicate (3 * m) 0 =
        0 :: 0 :: 0 :: List.replicate (3 * m) 0 := rfl
    rw [h4, h3]
    simp [b64Decode, b64Group, ih]

/-! ### Claim theorems -/

/-- C1: evaluating `resetState` on a session whose write cursor is 4 (and
whose flags, file size and framing fields are all nonzero) shows that the
reset command clears the command state, both flags, the file size and the
framing counters, and is idempotent — but leaves `currentFlashOffset` at
4 instead of returning it to 0 as the claim states. -/
theorem c1_reset_bug :
    (resetState c1Session).currentFlashOffset = 4 ∧
    ¬ (resetState c1Session).currentFlashOffset = 0 ∧
    (resetState c1Session).state = states.NONE ∧
    (resetState c1Session).shouldDoErase = false ∧
    (resetState c1Session).shouldDoWrite = false ∧
    (resetState c1Session).fileSize = 0 ∧
    (resetState c1Session).currRecvDataPos = 0 ∧
    (resetState c1Session).messageLength = 0 ∧
    resetState (resetState c1Session) = resetState c1Session := by
  refine ⟨rfl, by decide, rfl, rfl, rfl, rfl, rfl, rfl, rfl⟩

/-- C2 counterexample: a payload of length exactly `MESSAGE_MAX_SIZE`
(2735, the buffer capacity) — for which the claim demands an overflow
error and a full reset — is accumulated without any response line at
all. -/
theorem c2_counterexample :
    (List.replicate MESSAGE_MAX_SIZE (65 : Int)).length = MESSAGE_MAX_SIZE ∧
    (handleSerialMessage c2Session (List.replicate MESSAGE_MAX_SIZE (65 : Int))).2 = [] := by
  refine ⟨List.length_replicate _ _, ?_⟩
  exact (feed_data_ok _ c2Session
    (fun b hb => by rw [List.eq_of_mem_replicate hb]; decide)
    (by rw [show c2Session.currRecvDataPos = 0 from rfl, List.length_replicate]
        omega)
    (by show (List.replicate MESSAGE_MAX_SIZE (0 : Nat)).length = MESSAGE_MAX_SIZE
        rw [List.length_replicate])).1

/-- C2 (amended): a payload of at most `MESSAGE_MAX_SIZE` (2735) data
bytes is accumulated with no overflow reset, the buffer keeps its
declared size (every store in bounds) and the session is untouched; only
a payload of 2736 bytes triggers the overflow error line and the full
reset, and its final byte has by then been stored one cell past the
buffer's end (the buffer's length becomes 2736). -/
theorem c2_framing (bs : List Int) (hdata : ∀ b ∈ bs, IsDataByte b) :
    (bs.length ≤ MESSAGE_MAX_SIZE →
      (handleSerialMessage c2Session bs).2 = [] ∧
      (handleSerialMessage c2Session bs).1.receivedMessage.length = MESSAGE_MAX_SIZE ∧
      (handleSerialMessage c2Session bs).1.fileSize = 7 ∧
      (handleSerialMessage c2Session bs).1.shouldDoErase = true) ∧
    (bs.length = MESSAGE_MAX_SIZE + 1 →
      (handleSerialMessage c2Session bs).2 = [overflowErrorLine] ∧
      (handleSerialMessage c2Session bs).1.receivedMessage.length = MESSAGE_MAX_SIZE + 1 ∧
      (handleSerialMessage c2Session bs).1.fileSize = 0 ∧
      (handleSerialMessage c2Session bs).1.shouldDoErase = false ∧
      (handleSerialMessage c2Session bs).1.currRecvDataPos = 0) := by
  have hbuf : c2Session.receivedMessage.length = MESSAGE_MAX_SIZE := by
    show (List.replicate MESSAGE_MAX_SIZE (0 : Nat)).length = MESSAGE_MAX_SIZE
    rw [List.length_replicate]
  have hpos : c2Session.currRecvDataPos = 0 := rfl
  constructor
  · intro h
    obtain ⟨o1, o2, o3, _, o5, _, o7, _⟩ :=
      feed_data_ok bs c2Session hdata (by omega) hbuf
    exact ⟨o1, o3, o7.trans rfl, o5.trans rfl⟩
  · intro h
    have hne : bs ≠ [] := by
      intro he
      rw [he] at h
      simp at h
    have hdec : bs.dropLast ++ [bs.getLast hne] = bs :=
      List.dropLast_append_getLast hne
    have hylen : bs.dropLast.length = MESSAGE_MAX_SIZE := by
      have := congrArg List.length hdec
      simp only [List.length_append, List.length_cons, List.length_nil] at this
      omega
    obtain ⟨o1, o2, o3, _, o5, _, o7, _⟩ :=
      feed_data_ok bs.dropLast c2Session
        (fun b hb => hdata b (List.mem_of_mem_dropLast hb))
        (by omega) hbuf
    have hy : IsDataByte (bs.getLast hne) :=
      hdata _ (List.getLast_mem hne)
    have hge : MESSAGE_MAX_SIZE ≤ (handleSerialMessage c2Session bs.dropLast).1.currRecvDataPos := by
      omega
    rw [← hdec, handleSerialMessage_append]
    simp only [handleSerialMessage, handleSerialByte_overflow _ _ hy hge, o1]
    refine ⟨rfl, ?_, rfl, rfl, rfl⟩
    simp only [resetState, listSet_length]
    omega

/-- C2 witness: one data byte is accumulated silently, in bounds, with
the session untouched. -/
theorem c2_framing_witness :
    (handleSerialMessage c2Session [65]).2 = [] ∧
    (handleSerialMessage c2Session [65]).1.receivedMessage.length = MESSAGE_MAX_SIZE ∧
    (handleSerialMessage c2Session [65]).1.fileSize = 7 ∧
    (handleSerialMessage c2Session [65]).1.shouldDoErase = true :=
  (c2_framing [65] (by decide)).1 (by decide)

/-- C3: with a decoded chunk of length `dataLength`, do-flash advances the
write cursor by exactly that length and emits the write-acknowledged line
when the device reports status 0, and on a nonzero status leaves the
cursor unchanged, emits one error line naming the offset and the error
code, and resets the session; the chunk length is cleared either way. -/
theorem c3_do_flash (s : Session) (e : Int)
    (hfit : s.currentFlashOffset + s.dataLength < 2 ^ 32) :
    handleDoFlash s e =
      (if e = 0 then
        ({ s with currentFlashOffset := s.currentFlashOffset + s.dataLength,
                  dataLength := 0 }, ["#W_OK"])
      else
        ({ resetState s with dataLength := 0 },
         ["!ERROR: Flash error during write in page at " ++ toString s.currentFlashOffset ++
          " : Err " ++ toString e])) ∧
    (handleDoFlash s e).1.currentFlashOffset =
      (if e = 0 then s.currentFlashOffset + s.dataLength else s.currentFlashOffset) := by
  have hm : (s.currentFlashOffset + s.dataLength) % 2 ^ 32 =
      s.currentFlashOffset + s.dataLength := Nat.mod_eq_of_lt hfit
  by_cases he : e = 0
  · subst he
    simp [handleDoFlash, writeData, hm]
    omega
  · simp [handleDoFlash, writeData, he, resetState]

/-- C3 witness: from a fresh session holding a 4-byte decoded chunk, a
clean device write acknowledges and moves the cursor from 0 to 4. -/
theorem c3_do_flash_witness :
    (handleDoFlash { initialSession 4194304 with dataLength := 4 } 0).1.currentFlashOffset = 4 ∧
    (handleDoFlash { initialSession 4194304 with dataLength := 4 } 0).2 = ["#W_OK"] ∧
    (handleDoFlash { initialSession 4194304 with dataLength := 4 } 0).1.dataLength = 0 := by
  have h := c3_do_flash { initialSession 4194304 with dataLength := 4 } 0 (by decide)
  rw [if_pos rfl] at h
  rw [h.1]
  refine ⟨by decide, by decide, by decide⟩

/-- C4: against a device of capacity 40000 — not a multiple of the 32768
block size — whose every block past block 0 would report error code 5,
do-erase runs to the success message without touching any block past
block 0: the loop bound `ceil(flashSize / 32768)` is computed with
integer division, so only `40000 / 32768 = 1` block is erased and the
bytes from 32768 to 39999 are never covered, though covering the full
capacity needs 2 blocks. -/
theorem c4_erase_coverage_bug :
    eraseChip (initialSession 40000) c4ErrAt =
      (initialSession 40000, ["#Erasing chip...", "#Chip erased"]) ∧
    (initialSession 40000).flashSize / 32768 = 1 ∧
    32768 * ((initialSession 40000).flashSize / 32768) < (initialSession 40000).flashSize := by
  refine ⟨?_, by decide, by decide⟩
  rfl

/-- C5: set-file-size stores any decoded value that does not exceed the
device capacity as `fileSize` with no response line (the decode's side
effect on `dataBuffer` included), and rejects any larger value with one
error line and a full session reset; the code's comparison is strict, so
a value equal to the capacity is accepted. -/
theorem c5_set_file_size (s : Session) (v : Nat)
    (hv : b64ToInt (payloadOf s) = v) :
    handleSetFileSize s =
      (if s.flashSize < v then
        (resetState { s with dataBuffer := writeBytes s.dataBuffer (b64ToBytes (payloadOf s)) },
         ["!ERROR: File size exceeds flash size"])
      else
        ({ s with dataBuffer := writeBytes s.dataBuffer (b64ToBytes (payloadOf s)),
                  fileSize := v }, [])) := by
  subst hv
  simp only [handleSetFileSize, b64ToInt, gt_iff_lt]

/-- C5 witness: the boundary case — a payload decoding to 1024 against a
device of capacity exactly 1024 is accepted, stored, and answered with no
response line. -/
theorem c5_set_file_size_witness :
    c5Session.flashSize = 1024 ∧
    b64ToInt (payloadOf c5Session) = 1024 ∧
    (handleSetFileSize c5Session).1.fileSize = 1024 ∧
    (handleSetFileSize c5Session).2 = [] := by
  have h := c5_set_file_size c5Session 1024 (by decide)
  rw [if_neg (by decide)] at h
  exact ⟨rfl, by decide, by rw [h], by rw [h]⟩

/-- C6: set-baud rejects any decoded rate above 921600 with one error
line (the rate rendered in hex) and a full session reset, after which the
transport sits at the initial 9600 baud — never at the requested rate —
and accepts any rate at or below 921600 by reopening the transport at
that rate with no response line. -/
theorem c6_set_baud (s : Session) (v : Nat)
    (hv : b64ToInt (payloadOf s) = v) :
    handleSetBaud s =
      (if 921600 < v then
        (resetState { s with dataBuffer := writeBytes s.dataBuffer (b64ToBytes (payloadOf s)) },
         ["!ERROR: Invalid baudrate \x27" ++ natToHex v ++ "\x27"])
      else
        ({ s with dataBuffer := writeBytes s.dataBuffer (b64ToBytes (payloadOf s)),
                  baud := v }, [])) ∧
    (921600 < v →
      (handleSetBaud s).1.baud = INITIAL_SERIAL_BAUD_RATE ∧
      ¬ (handleSetBaud s).1.baud = v) := by
  subst hv
  simp only [handleSetBaud, b64ToInt, gt_iff_lt]
  by_cases hc : 921600 < byteArrayToInt (b64ToBytes (payloadOf s))
  · refine ⟨by simp [hc], fun _ => ⟨?_, ?_⟩⟩
    · simp [hc, resetState]
    · simp only [hc, if_true, resetState]
      intro hh
      rw [INITIAL_SERIAL_BAUD_RATE] at hh
      omega
  · exact ⟨by simp [hc], fun hlt => absurd hlt hc⟩

/-- C6 witness: the spec scenario — a payload decoding to 2000000 (above
the ceiling) draws exactly one error line naming the rate in hex, and
leaves the session reset with the transport back at 9600 baud. -/
theorem c6_set_baud_witness :
    b64ToInt (payloadOf c6Session) = 2000000 ∧
    (handleSetBaud c6Session).2 = ["!ERROR: Invalid baudrate \x271E8480\x27"] ∧
    (handleSetBaud c6Session).1.baud = INITIAL_SERIAL_BAUD_RATE ∧
    ¬ (handleSetBaud c6Session).1.baud = 2000000 := by
  have h := c6_set_baud c6Session 2000000 (by decide)
  have h1 := h.1
  rw [if_pos (by decide)] at h1
  have h2 := h.2 (by decide)
  refine ⟨by decide, ?_, h2.1, h2.2⟩
  rw [h1]
  decide

/-- C7: receive-flash-chunk answers a payload whose decoded length is
zero with one error line and a full session reset; any other payload
draws exactly one checksum-tagged line, `@` followed by the digest of
precisely the decoded bytes, and those bytes (and their length) are
retained in `dataBuffer`/`dataLength` for the next do-flash. -/
theorem c7_recv_chunk (digest : List Nat → String) (s : Session) :
    handleRecvFlashData digest s =
      (if (b64ToBytes (payloadOf s)).length = 0 then
        (resetState { s with
            dataBuffer := writeBytes s.dataBuffer (b64ToBytes (payloadOf s))
            dataLength := (b64ToBytes (payloadOf s)).length },
         ["!ERROR: Data length was 0 after conversion from base64"])
      else
        ({ s with
            dataBuffer := writeBytes s.dataBuffer (b64ToBytes (payloadOf s))
            dataLength := (b64ToBytes (payloadOf s)).length
            messageLength := 0, dataNeedsHandling := false },
         ["@" ++ digest (b64ToBytes (payloadOf s))])) ∧
    List.take (handleRecvFlashData digest s).1.dataLength
      (handleRecvFlashData digest s).1.dataBuffer = b64ToBytes (payloadOf s) ∧
    (handleRecvFlashData digest s).1.dataLength = (b64ToBytes (payloadOf s)).length := by
  refine ⟨?_, ?_, ?_⟩
  · simp only [handleRecvFlashData]
    split
    · rfl
    · rw [take_writeBytes]
  · simp only [handleRecvFlashData]
    split <;> simp [resetState, take_writeBytes]
  · simp only [handleRecvFlashData]
    split <;> simp [resetState]

/-- C8: each of the nine reserved selector bytes, fed on its own, sets
the pending command to its dedicated value and leaves the payload buffer,
the fill cursor and the output untouched. -/
theorem c8_selectors (s : Session) (b : Int) (hb : b ∈ selectorBytes) :
    (handleSerialByte s b).1.state = selectorCommand b ∧
    (handleSerialByte s b).1.receivedMessage = s.receivedMessage ∧
    (handleSerialByte s b).1.currRecvDataPos = s.currRecvDataPos ∧
    (handleSerialByte s b).2 = [] := by
  fin_cases hb <;> exact ⟨rfl, rfl, rfl, rfl⟩

/-- C8 witness: the reset selector byte `*` (42) on a fresh session. -/
theorem c8_selectors_witness :
    (handleSerialByte (initialSession 4194304) 42).1.state = selectorCommand 42 ∧
    (handleSerialByte (initialSession 4194304) 42).1.receivedMessage =
      (initialSession 4194304).receivedMessage ∧
    (handleSerialByte (initialSession 4194304) 42).1.currRecvDataPos =
      (initialSession 4194304).currRecvDataPos ∧
    (handleSerialByte (initialSession 4194304) 42).2 = [] :=
  c8_selectors (initialSession 4194304) 42 (by decide)

/-- C9: the integer reconstruction shared by set-baud, the two flag
setters and set-file-size is little-endian — each byte contributes
`byte * 2 ^ (8 * index)`, summed and taken as an unsigned 32-bit value —
the empty sequence yields 0, and `b64ToInt` is exactly this
reconstruction applied to the decoded payload bytes. -/
theorem c9_little_endian (l p : List Nat) :
    byteArrayToInt l =
      (∑ j ∈ Finset.range l.length, l.getD j 0 * 2 ^ (8 * j)) % 2 ^ 32 ∧
    byteArrayToInt [] = 0 ∧
    b64ToInt p = byteArrayToInt (b64ToBytes p) := by
  refine ⟨?_, rfl, rfl⟩
  have h := byteArrayToIntAux_eq l 0 0 (by norm_num)
  simpa using h

/-- C10: a frame of 2732 base64 characters — accepted by the framer,
since 2732 ≤ MESSAGE_MAX_SIZE = 2735 — decodes to 2049 bytes, strictly
more than DATA_CHUNK_SIZE = 2048, and receive-flash-chunk then stores
2049 bytes over the 2048-byte `dataBuffer`: the model's buffer grows to
length 2049, the image of an out-of-bounds store in the C program. -/
theorem c10_chunk_overflow_bug :
    c10Session.messageLength ≤ MESSAGE_MAX_SIZE ∧
    (b64ToBytes (payloadOf c10Session)).length = 2049 ∧
    DATA_CHUNK_SIZE < (b64ToBytes (payloadOf c10Session)).length ∧
    (handleRecvFlashData (fun _ => "") c10Session).1.dataBuffer.length = 2049 := by
  have hp : payloadOf c10Session = List.replicate 2732 65 := by
    show List.take 2732 (List.replicate 2732 65 ++ List.replicate 3 0) = List.replicate 2732 65
    rw [List.take_append_of_le_length (by rw [List.length_replicate]), List.take_replicate,
      Nat.min_self]
  have hlen : (b64ToBytes (payloadOf c10Session)).length = 2049 := by
    rw [hp, b64ToBytes, b64Vals_replicate_A, show (2732 : Nat) = 4 * 683 from by norm_num,
      b64Decode_replicate_zero, List.length_replicate]
  have hbuf : c10Session.dataBuffer.length = 2048 := by
    show (List.replicate DATA_CHUNK_SIZE (0 : Nat)).length = 2048
    rw [List.length_replicate]
    rfl
  refine ⟨by decide, hlen, by rw [hlen]; decide, ?_⟩
  simp only [handleRecvFlashData]
  rw [if_neg (by rw [hlen]; norm_num)]
  simp only [writeBytes_length]
  rw [hlen, hbuf]
  omega

end SPIFlasher
